import Mathlib

/-!
Verification of the InsSnap instant-camera application: a shallow embedding
of its data model (types), the Polaroid development/filter engine
(Polaroid.tsx), the capture logic (RetroCamera.tsx) and the wall state
plus persistence effects (App), with theorems settling the specified
properties.

Numbers that the source treats as JavaScript numbers are modelled as
rationals; JSON payloads are modelled at the value level, since the
string round-trip of well-formed JSON is the platform identity.
-/

namespace InsSnap

/-- FilterType from types.ts: normal, bw, sepia, warm, cool. -/
inductive FilterType where
  | normal
  | bw
  | sepia
  | warm
  | cool
deriving DecidableEq, Repr

/-- PhotoData from types.ts. `url` is the encoded image payload,
`timestamp` is Date.now, `x`, `y` the top-left position, `rotation`
the cosmetic tilt, `isDeveloping` the development flag,
`filterType` the selected filter. -/
structure PhotoData where
  id : String
  url : String
  timestamp : Nat
  x : ℚ
  y : ℚ
  rotation : ℚ
  isDeveloping : Bool
  caption : Option String
  filterType : FilterType
deriving DecidableEq, Repr

/-- Coordinates from types.ts. -/
structure Coordinates where
  x : ℚ
  y : ℚ
deriving DecidableEq, Repr

/-- The CSS filter parameter vector produced by the Polaroid
component: blur(px), brightness(%), contrast(%), grayscale(%),
sepia(%), saturate(%), hue-rotate(deg). -/
structure ParameterVector where
  blur : ℚ
  brightness : ℚ
  contrast : ℚ
  grayscale : ℚ
  sepia : ℚ
  saturate : ℚ
  hueRotate : ℚ
deriving DecidableEq, Repr

/-- The per-filter target values of the switch in Polaroid.tsx:
defaults targetGrayscale 0, targetSepia 0, targetContrast 100,
targetSaturate 100, targetHue 0, brightnessMod 0, overridden per case. -/
structure FilterTargets where
  targetGrayscale : ℚ
  targetSepia : ℚ
  targetContrast : ℚ
  targetSaturate : ℚ
  targetHue : ℚ
  brightnessMod : ℚ
deriving DecidableEq, Repr

/-- The switch (filterType) block of Polaroid.tsx (lines 52-85). -/
def filterTargets : FilterType → FilterTargets
  | .bw =>
    { targetGrayscale := 100, targetSepia := 0, targetContrast := 120,
      targetSaturate := 100, targetHue := 0, brightnessMod := 0 }
  | .sepia =>
    { targetGrayscale := 0, targetSepia := 80, targetContrast := 90,
      targetSaturate := 100, targetHue := 0, brightnessMod := -5 }
  | .warm =>
    { targetGrayscale := 0, targetSepia := 30, targetContrast := 110,
      targetSaturate := 140, targetHue := -10, brightnessMod := 0 }
  | .cool =>
    { targetGrayscale := 0, targetSepia := 0, targetContrast := 110,
      targetSaturate := 90, targetHue := 15, brightnessMod := 5 }
  | .normal =>
    { targetGrayscale := 0, targetSepia := 0, targetContrast := 105,
      targetSaturate := 100, targetHue := 0, brightnessMod := 0 }

/-- imageFilterStyle from Polaroid.tsx (lines 43-118): maps a
development state (0..100) and a filter selection to the CSS filter
parameter vector, exactly following the source arithmetic. -/
def imageFilterStyle (filterType : FilterType) (developState : ℚ) :
    ParameterVector :=
  let progress := developState / 100
  let baseBlur := max 0 (10 - developState / 10)
  let baseBrightness := 50 + developState / 2
  let t := filterTargets filterType
  let currentGrayscale := 100 - progress * (100 - t.targetGrayscale)
  let currentSepia := progress * t.targetSepia
  let currentContrast := 50 + progress * (t.targetContrast - 50)
  let currentSaturate := progress * t.targetSaturate
  let currentHue := progress * t.targetHue
  let currentBrightness := baseBrightness + progress * t.brightnessMod
  { blur := baseBlur
    brightness := currentBrightness
    contrast := currentContrast
    grayscale := currentGrayscale
    sepia := currentSepia
    saturate := currentSaturate
    hueRotate := currentHue }

/-- The target table of the specification (section 4.3), written from
the specification words: per filter (contrast, grayscale, sepia,
saturate, hue, brightnessMod). -/
def specTargets : FilterType → FilterTargets
  | .normal =>
    { targetContrast := 105, targetGrayscale := 0, targetSepia := 0,
      targetSaturate := 100, targetHue := 0, brightnessMod := 0 }
  | .bw =>
    { targetContrast := 120, targetGrayscale := 100, targetSepia := 0,
      targetSaturate := 100, targetHue := 0, brightnessMod := 0 }
  | .sepia =>
    { targetContrast := 90, targetGrayscale := 0, targetSepia := 80,
      targetSaturate := 100, targetHue := 0, brightnessMod := -5 }
  | .warm =>
    { targetContrast := 110, targetGrayscale := 0, targetSepia := 30,
      targetSaturate := 140, targetHue := -10, brightnessMod := 0 }
  | .cool =>
    { targetContrast := 110, targetGrayscale := 0, targetSepia := 0,
      targetSaturate := 90, targetHue := 15, brightnessMod := 5 }

/-- The reference render function of the specification (section 4.3),
written from the specification words: blur = max(0, 10 - p/10);
brightness = 50 + p/2 + (p/100) * brightnessMod; grayscale, sepia,
saturate, hueRotate are linear interpolations start + (p/100) *
(target - start) with grayscale start 100 and the others start 0;
contrast = 50 + (p/100) * (target - 50). -/
def renderSpec (progress : ℚ) (filter : FilterType) : ParameterVector :=
  let t := specTargets filter
  { blur := max 0 (10 - progress / 10)
    brightness := 50 + progress / 2 + progress / 100 * t.brightnessMod
    contrast := 50 + progress / 100 * (t.targetContrast - 50)
    grayscale := 100 + progress / 100 * (t.targetGrayscale - 100)
    sepia := 0 + progress / 100 * (t.targetSepia - 0)
    saturate := 0 + progress / 100 * (t.targetSaturate - 0)
    hueRotate := 0 + progress / 100 * (t.targetHue - 0) }

/-- videoSize from RetroCamera.tsx line 40: the side of the largest
centered square crop of the source frame. -/
def videoSize (videoWidth videoHeight : ℕ) : ℕ :=
  min videoWidth videoHeight

/-- startX from RetroCamera.tsx line 41: the horizontal crop offset. -/
def cropStartX (videoWidth videoHeight : ℕ) : ℚ :=
  ((videoWidth : ℚ) - videoSize videoWidth videoHeight) / 2

/-- startY from RetroCamera.tsx line 42: the vertical crop offset. -/
def cropStartY (videoWidth videoHeight : ℕ) : ℚ :=
  ((videoHeight : ℚ) - videoSize videoWidth videoHeight) / 2

/-- The crop rule as the specification words it: side = min(width,
height), offset = ((width - side)/2, (height - side)/2). -/
def specCrop (width height : ℕ) : ℕ × ℚ × ℚ :=
  let side := min width height
  (side, ((width : ℚ) - side) / 2, ((height : ℚ) - side) / 2)

/-- A JSON value held under the storage key, modelled at the value
level: either an array of photo-shaped records, some other JSON
object, or another JSON value. -/
inductive PersistedValue where
  | jarr (photos : List PhotoData)
  | jobj
  | jother
deriving DecidableEq, Repr

/-- The raw content of the localStorage key: absent, unparseable text
(JSON.parse throws), or parseable JSON. -/
inductive RawPayload where
  | absent
  | invalid
  | valid (v : PersistedValue)
deriving DecidableEq, Repr

/-- JSON.stringify(photos) from the auto-save effect (App line 35),
modelled at the JSON value level: an array of the photo records,
every field written as it is in memory. -/
def serializePhotos (photos : List PhotoData) : PersistedValue :=
  .jarr photos

/-- The load effect of App (lines 16-29): read the storage key; if
present, JSON.parse it (a parse failure is caught and ignored); if
the parsed value is an array, install it with every photo's
isDeveloping forced to false; otherwise leave the wall empty. -/
def loadPhotos : RawPayload → List PhotoData
  | .absent => []
  | .invalid => []
  | .valid (.jarr parsed) =>
      parsed.map (fun p => { p with isDeveloping := false })
  | .valid .jobj => []
  | .valid .jother => []

/-- The state of App: the wall photo list, the dragging state and the
durable storage content under the retro-snap-photos key. -/
structure AppState where
  photos : List PhotoData
  draggingPhotoId : Option String
  dragOffset : Coordinates
  storage : RawPayload
deriving DecidableEq, Repr

/-- The auto-save effect of App (lines 32-40): whenever photos change,
write JSON.stringify(photos) to the storage key, but only when the
list is non-empty. -/
def autoSaveEffect (s : AppState) : AppState :=
  if s.photos.length > 0 then
    { s with storage := .valid (serializePhotos s.photos) }
  else s

/-- handleClear from App (lines 82-88), confirmation granted: empty the
photo list and remove the storage key; the auto-save effect that then
runs sees an empty list and writes nothing. -/
def handleClear (s : AppState) : AppState :=
  autoSaveEffect { s with photos := [], storage := .absent }

/-- handleDeletePhoto from App (lines 90-92) followed by the auto-save
effect: drop every photo whose id equals the given id. -/
def handleDeletePhoto (s : AppState) (id : String) : AppState :=
  autoSaveEffect
    { s with photos := s.photos.filter (fun p => p.id != id) }

/-- The bounding rectangle of the ejected photo element handed to
onTakePaper. -/
structure Rect where
  left : ℚ
  top : ℚ
  width : ℚ
  height : ℚ
deriving DecidableEq, Repr

/-- handleTakePaper from App (lines 100-115) followed by the auto-save
effect: place the ejected photo at the rectangle's top-left corner,
append it to the wall, start dragging it with offset (width/2,
height/4). -/
def handleTakePaper (s : AppState) (photo : PhotoData) (rect : Rect) :
    AppState :=
  let newPhoto := { photo with x := rect.left, y := rect.top }
  autoSaveEffect
    { s with
      photos := s.photos ++ [newPhoto]
      draggingPhotoId := some newPhoto.id
      dragOffset := { x := rect.width / 2, y := rect.height / 4 } }

/-- The setPhotos update of handleMouseDown (App lines 131-134): move
the grabbed photo to the top of the stack, keeping the others in
order. The source first finds the photo by id and returns unchanged
when it is absent. -/
def bringToFront (photos : List PhotoData) (id : String) :
    List PhotoData :=
  match photos.find? (fun p => p.id == id) with
  | none => photos
  | some photo => photos.filter (fun p => p.id != id) ++ [photo]

/-- handleMouseDown from App (lines 117-135) followed by the auto-save
effect: start dragging the photo with offset (client - position) and
re-stack it on top. -/
def handleMouseDown (s : AppState) (clientX clientY : ℚ) (id : String) :
    AppState :=
  match s.photos.find? (fun p => p.id == id) with
  | none => s
  | some photo =>
      autoSaveEffect
        { s with
          draggingPhotoId := some id
          dragOffset := { x := clientX - photo.x, y := clientY - photo.y }
          photos := bringToFront s.photos id }

/-- handleMouseMove from App (lines 137-153) followed by the auto-save
effect: while a drag is active, reposition the dragged photo to the
pointer minus the drag offset. -/
def handleMouseMove (s : AppState) (clientX clientY : ℚ) : AppState :=
  match s.draggingPhotoId with
  | none => s
  | some draggingId =>
      autoSaveEffect
        { s with
          photos := s.photos.map (fun photo =>
            if photo.id == draggingId then
              { photo with
                x := clientX - s.dragOffset.x
                y := clientY - s.dragOffset.y }
            else photo) }

/-- The state of RetroCamera together with the useCamera hook values it
consumes: whether the video element is mounted, the hook's error and
isLoading flags, the ejection state and the selected filter. -/
structure CameraState where
  videoPresent : Bool
  error : Option String
  isLoading : Bool
  flashActive : Bool
  ejectingPhoto : Option PhotoData
  isEjected : Bool
  selectedFilter : FilterType
deriving DecidableEq, Repr

/-- The environment inputs a shot consumes: Date.now for the id and
timestamp, Math.random for the tilt, and the encoded capture. -/
structure ShotInput where
  id : String
  url : String
  timestamp : Nat
  rotation : ℚ
deriving DecidableEq, Repr

/-- handleShoot from RetroCamera.tsx (lines 28-86): return unchanged
when the video element is missing, the camera is loading, or a photo
is already ejecting; otherwise flash and start ejecting a new photo
with isDeveloping true and the selected filter. -/
def handleShoot (cs : CameraState) (inp : ShotInput) : CameraState :=
  if !cs.videoPresent || cs.isLoading || cs.ejectingPhoto.isSome then cs
  else
    { cs with
      flashActive := true
      ejectingPhoto := some
        { id := inp.id
          url := inp.url
          timestamp := inp.timestamp
          x := 0
          y := 0
          rotation := inp.rotation
          isDeveloping := true
          caption := none
          filterType := cs.selectedFilter }
      isEjected := false }

/-- Preservation of the non-positional identity of a photo record: id,
image payload, timestamp, rotation and filter are equal. -/
def samePhotoCore (p q : PhotoData) : Prop :=
  q.id = p.id ∧ q.url = p.url ∧ q.timestamp = p.timestamp ∧
  q.rotation = p.rotation ∧ q.filterType = p.filterType

/-- Concrete fixture photo A. -/
def photoA : PhotoData :=
  { id := "A", url := "dataA", timestamp := 1, x := 10, y := 20,
    rotation := 1, isDeveloping := false, caption := none,
    filterType := .normal }

/-- Concrete fixture photo B. -/
def photoB : PhotoData :=
  { id := "B", url := "dataB", timestamp := 2, x := 30, y := 40,
    rotation := -1, isDeveloping := false, caption := none,
    filterType := .sepia }

/-- Concrete fixture photo C. -/
def photoC : PhotoData :=
  { id := "C", url := "dataC", timestamp := 3, x := 50, y := 60,
    rotation := 2, isDeveloping := false, caption := none,
    filterType := .cool }

/-- Concrete fixture photo still mid-development, as handleShoot
produces it (isDeveloping true). -/
def photoDev : PhotoData :=
  { id := "D", url := "dataD", timestamp := 4, x := 0, y := 0,
    rotation := 0, isDeveloping := true, caption := none,
    filterType := .warm }

/-- App state with an empty wall and empty storage. -/
def state0 : AppState :=
  { photos := [], draggingPhotoId := none,
    dragOffset := { x := 0, y := 0 }, storage := .absent }

/-- App state holding exactly photo A, with storage in sync. -/
def stateA : AppState :=
  { photos := [photoA], draggingPhotoId := none,
    dragOffset := { x := 0, y := 0 },
    storage := .valid (serializePhotos [photoA]) }

/-- App state holding photos A and B, with storage in sync. -/
def stateAB : AppState :=
  { photos := [photoA, photoB], draggingPhotoId := some "B",
    dragOffset := { x := 0, y := 0 },
    storage := .valid (serializePhotos [photoA, photoB]) }

/-- A concrete bounding rectangle for an ejected photo. -/
def rect0 : Rect := { left := 7, top := 8, width := 200, height := 240 }

/-- A bounding rectangle of width 170 (half-width 85), the mobile
Polaroid width. -/
def rect170 : Rect :=
  { left := 7, top := 8, width := 170, height := 204 }

/-- Concrete shot environment inputs. -/
def shot1 : ShotInput :=
  { id := "1700000000000", url := "dataShot",
    timestamp := 1700000000000, rotation := -1 }

/-- Camera state whose useCamera hook reported an error: loading is
finished, the video element is mounted, no photo is in flight. -/
def erroredCamera : CameraState :=
  { videoPresent := true,
    error := some "Camera access denied or unavailable.",
    isLoading := false, flashActive := false, ejectingPhoto := none,
    isEjected := false, selectedFilter := .normal }

/-- Camera state with one photo already ejecting. -/
def busyCamera : CameraState :=
  { videoPresent := true, error := none, isLoading := false,
    flashActive := false, ejectingPhoto := some photoDev,
    isEjected := true, selectedFilter := .bw }

/-- The auto-save effect never touches the photo list. -/
theorem autoSaveEffect_photos (s : AppState) :
    (autoSaveEffect s).photos = s.photos := by
  unfold autoSaveEffect; split <;> rfl

/-- The auto-save effect never touches the dragging id. -/
theorem autoSaveEffect_draggingPhotoId (s : AppState) :
    (autoSaveEffect s).draggingPhotoId = s.draggingPhotoId := by
  unfold autoSaveEffect; split <;> rfl

/-- The auto-save effect never touches the drag offset. -/
theorem autoSaveEffect_dragOffset (s : AppState) :
    (autoSaveEffect s).dragOffset = s.dragOffset := by
  unfold autoSaveEffect; split <;> rfl

/-- On a non-empty photo list the auto-save effect writes the
serialized list to storage. -/
theorem autoSaveEffect_storage_of_ne_nil (s : AppState)
    (h : s.photos ≠ []) :
    (autoSaveEffect s).storage = .valid (serializePhotos s.photos) := by
  unfold autoSaveEffect
  have : 0 < s.photos.length := List.length_pos.mpr h
  simp [this]

/-- On an empty photo list the auto-save effect writes nothing. -/
theorem autoSaveEffect_storage_of_nil (s : AppState)
    (h : s.photos = []) : (autoSaveEffect s).storage = s.storage := by
  unfold autoSaveEffect
  simp [h]

/-- C1: for every filter and every integer progress in [0, 100], the
imageFilterStyle computation of Polaroid.tsx coincides with the
reference render definition of the specification on every component
of the parameter vector. -/
theorem imageFilterStyle_eq_renderSpec (filter : FilterType)
    (progress : ℕ) (_hp : progress ≤ 100) :
    imageFilterStyle filter (progress : ℚ) =
      renderSpec (progress : ℚ) filter := by
  cases filter <;>
    · simp only [imageFilterStyle, renderSpec, filterTargets, specTargets]
      congr 1 <;> ring

/-- Witness for C1: the two renderings agree at progress 40 with the
warm filter. -/
theorem imageFilterStyle_eq_renderSpec_witness :
    (40 : ℕ) ≤ 100 ∧
      imageFilterStyle .warm ((40 : ℕ) : ℚ) =
        renderSpec ((40 : ℕ) : ℚ) .warm :=
  ⟨by norm_num, imageFilterStyle_eq_renderSpec .warm 40 (by norm_num)⟩

/-- C7: the frame capturer's crop side and offsets equal the largest
centered square crop of the specification for every source size, and
for a 1280 by 720 source the side is 720 and the offset (280, 0). -/
theorem crop_matches_spec :
    (∀ w h : ℕ,
      (videoSize w h, cropStartX w h, cropStartY w h) = specCrop w h) ∧
    videoSize 1280 720 = 720 ∧ cropStartX 1280 720 = 280 ∧
    cropStartY 1280 720 = 0 := by
  refine ⟨fun w h => rfl, rfl, ?_, ?_⟩
  · norm_num [cropStartX, videoSize]
  · norm_num [cropStartY, videoSize]

/-- C9: an absent payload, unparseable text, a JSON object or any
other non-array JSON value loads as the empty wall; only a parseable
JSON array populates the wall (normalized). -/
theorem malformed_payload_loads_empty :
    loadPhotos .absent = [] ∧
    loadPhotos .invalid = [] ∧
    loadPhotos (.valid .jobj) = [] ∧
    loadPhotos (.valid .jother) = [] ∧
    (∀ ps : List PhotoData,
      loadPhotos (.valid (.jarr ps)) =
        ps.map (fun p => { p with isDeveloping := false })) :=
  ⟨rfl, rfl, rfl, rfl, fun _ => rfl⟩

/-- C5: serializing any wall collection and loading it back yields the
same photos in the same order with every field preserved except that
isDeveloping reads back false. -/
theorem persistence_round_trip (ps : List PhotoData) :
    loadPhotos (.valid (serializePhotos ps)) =
      ps.map (fun p => { p with isDeveloping := false }) ∧
    (loadPhotos (.valid (serializePhotos ps))).map
        (fun p => (p.id, p.url, p.timestamp, p.x, p.y, p.rotation,
          p.caption, p.filterType)) =
      ps.map (fun p => (p.id, p.url, p.timestamp, p.x, p.y, p.rotation,
        p.caption, p.filterType)) ∧
    (loadPhotos (.valid (serializePhotos ps))).map
        (fun p => p.isDeveloping) =
      ps.map (fun _ => false) := by
  refine ⟨rfl, ?_, ?_⟩
  · show (ps.map (fun p => { p with isDeveloping := false })).map _ = _
    rw [List.map_map]; rfl
  · show (ps.map (fun p => { p with isDeveloping := false })).map _ = _
    rw [List.map_map]; rfl

/-- C6: bringing a member photo to the front equals remove-then-append
when ids are unique around it: for a collection split as l1 ++ p :: l2
with no other occurrence of the id, the result is l1 ++ l2 ++ [p] —
the same photos, the grabbed one last, the relative order of the rest
unchanged. -/
theorem bringToFront_removes_then_appends (l1 l2 : List PhotoData)
    (p : PhotoData) (h1 : ∀ q ∈ l1, q.id ≠ p.id)
    (h2 : ∀ q ∈ l2, q.id ≠ p.id) :
    bringToFront (l1 ++ p :: l2) p.id = l1 ++ l2 ++ [p] := by
  have hfind : (l1 ++ p :: l2).find? (fun q => q.id == p.id) = some p := by
    rw [List.find?_append]
    have hnone : l1.find? (fun q => q.id == p.id) = none := by
      rw [List.find?_eq_none]
      intro x hx
      simpa using h1 x hx
    rw [hnone]
    simp
  have hfl1 : l1.filter (fun q => q.id != p.id) = l1 :=
    List.filter_eq_self.mpr fun q hq => by simpa using h1 q hq
  have hfl2 : l2.filter (fun q => q.id != p.id) = l2 :=
    List.filter_eq_self.mpr fun q hq => by simpa using h2 q hq
  unfold bringToFront
  rw [hfind]
  simp [List.filter_append, hfl1, hfl2]

/-- Witness for C6: grabbing B in [A, B, C] yields [A, C, B]. -/
theorem bringToFront_removes_then_appends_witness :
    bringToFront [photoA, photoB, photoC] photoB.id =
      [photoA, photoC, photoB] :=
  bringToFront_removes_then_appends [photoA] [photoC] photoB
    (by decide) (by decide)

/-- C2 counterexample: with the wall holding exactly photo A and
storage in sync, deleting photo A empties the collection but leaves
the stored snapshot untouched — it still contains the deleted
photo A, so the store does not reflect the new collection. -/
theorem deleteLastPhoto_leaves_stale_snapshot :
    (handleDeletePhoto stateA "A").photos = [] ∧
    (handleDeletePhoto stateA "A").storage = .valid (.jarr [photoA]) ∧
    (handleDeletePhoto stateA "A").storage ≠
      .valid (serializePhotos (handleDeletePhoto stateA "A").photos) := by
  refine ⟨?_, ?_, ?_⟩ <;> decide

/-- C2 amended: adding a photo is always followed by a persistence
update reflecting the new collection; moving a photo while a drag is
active updates persistence whenever the wall is non-empty; deleting a
photo updates persistence whenever the deletion leaves the wall
non-empty, but deleting the last remaining photo leaves the previous
snapshot in storage; clearing the wall removes the stored snapshot. -/
theorem mutations_persist (s : AppState) (id : String)
    (photo : PhotoData) (rect : Rect) (cx cy : ℚ) :
    ((handleTakePaper s photo rect).storage =
      .valid (serializePhotos (handleTakePaper s photo rect).photos)) ∧
    (s.draggingPhotoId.isSome → s.photos ≠ [] →
      (handleMouseMove s cx cy).storage =
        .valid (serializePhotos (handleMouseMove s cx cy).photos)) ∧
    ((handleDeletePhoto s id).photos ≠ [] →
      (handleDeletePhoto s id).storage =
        .valid (serializePhotos (handleDeletePhoto s id).photos)) ∧
    ((handleDeletePhoto s id).photos = [] →
      (handleDeletePhoto s id).storage = s.storage) ∧
    ((handleClear s).photos = [] ∧ (handleClear s).storage = .absent) := by
  refine ⟨?_, ?_, ?_, ?_, ?_, ?_⟩
  · unfold handleTakePaper
    rw [autoSaveEffect_storage_of_ne_nil _ (by simp),
      autoSaveEffect_photos]
  · intro hdrag hne
    unfold handleMouseMove
    obtain ⟨did, hdid⟩ := Option.isSome_iff_exists.mp hdrag
    rw [hdid]
    rw [autoSaveEffect_storage_of_ne_nil _ (by simpa using hne),
      autoSaveEffect_photos]
  · intro hne
    unfold handleDeletePhoto at hne ⊢
    rw [autoSaveEffect_photos] at hne
    rw [autoSaveEffect_storage_of_ne_nil _ hne, autoSaveEffect_photos]
  · intro hnil
    unfold handleDeletePhoto at hnil ⊢
    rw [autoSaveEffect_photos] at hnil
    rw [autoSaveEffect_storage_of_nil _ hnil]
  · unfold handleClear
    rw [autoSaveEffect_photos]
  · unfold handleClear
    rw [autoSaveEffect_storage_of_nil _ rfl]

/-- Witness for C2 amended: deleting A from the two-photo wall [A, B]
persists the one-photo collection [B], and a drag move on that wall
persists the moved collection. -/
theorem mutations_persist_witness :
    ((handleDeletePhoto stateAB "A").storage =
      .valid (serializePhotos (handleDeletePhoto stateAB "A").photos)) ∧
    ((handleMouseMove stateAB 100 200).storage =
      .valid (serializePhotos (handleMouseMove stateAB 100 200).photos)) :=
  ⟨(mutations_persist stateAB "A" photoC rect0 100 200).2.2.1 (by decide),
   (mutations_persist stateAB "A" photoC rect0 100 200).2.1
     (by decide) (by decide)⟩

/-- C3 counterexample: handing a still-developing photo to the empty
wall writes a snapshot whose photo record keeps isDeveloping true —
the written snapshot is not normalized to fully developed. -/
theorem written_snapshot_keeps_developing_flag :
    photoDev.isDeveloping = true ∧
    (handleTakePaper state0 photoDev rect0).storage =
      .valid (.jarr
        [{ photoDev with x := rect0.left, y := rect0.top }]) ∧
    ({ photoDev with x := rect0.left, y := rect0.top } :
      PhotoData).isDeveloping = true := by
  refine ⟨rfl, ?_, rfl⟩
  decide

/-- C3 amended: snapshots are written with each photo's developing
flag exactly as it is in memory (serialization changes no field);
the normalization to fully developed happens when a snapshot is
loaded: every photo of any loaded collection has isDeveloping
false. -/
theorem normalization_happens_on_load (payload : RawPayload)
    (ps : List PhotoData) :
    serializePhotos ps = .jarr ps ∧
    (∀ p ∈ loadPhotos payload, p.isDeveloping = false) := by
  refine ⟨rfl, ?_⟩
  intro p hp
  cases payload with
  | absent => simp [loadPhotos] at hp
  | invalid => simp [loadPhotos] at hp
  | valid v =>
    cases v with
    | jarr l =>
      simp only [loadPhotos, List.mem_map] at hp
      obtain ⟨q, _, rfl⟩ := hp
      rfl
    | jobj => simp [loadPhotos] at hp
    | jother => simp [loadPhotos] at hp

/-- Witness for C3 amended: the photo loaded from a snapshot holding
the still-developing photo D reads back with isDeveloping false. -/
theorem normalization_happens_on_load_witness :
    ({ photoDev with isDeveloping := false } :
      PhotoData).isDeveloping = false :=
  (normalization_happens_on_load (.valid (.jarr [photoDev]))
    [photoDev]).2 { photoDev with isDeveloping := false } (by decide)

/-- C4 counterexample: with the useCamera hook reporting an error,
loading finished, the video element mounted and no photo in flight, a
capture request is not a no-op — it changes the state and puts a
photo in flight, so capture is not rejected while the camera reports
an error. -/
theorem capture_proceeds_while_errored :
    erroredCamera.error.isSome = true ∧
    erroredCamera.ejectingPhoto = none ∧
    (handleShoot erroredCamera shot1).ejectingPhoto.isSome = true ∧
    handleShoot erroredCamera shot1 ≠ erroredCamera := by
  refine ⟨rfl, rfl, ?_, ?_⟩ <;> decide

/-- C4 amended: a capture request is rejected as a silent no-op —
state unchanged, in particular still exactly one pending photo —
whenever a captured photo is already in flight, whenever the source
is loading, and whenever the video element is absent; the error flag
is not consulted by the guard. -/
theorem handleShoot_rejects (cs : CameraState) (inp : ShotInput) :
    (cs.ejectingPhoto.isSome = true → handleShoot cs inp = cs) ∧
    (cs.ejectingPhoto.isSome = true →
      (handleShoot cs inp).ejectingPhoto = cs.ejectingPhoto) ∧
    (cs.isLoading = true → handleShoot cs inp = cs) ∧
    (cs.videoPresent = false → handleShoot cs inp = cs) := by
  unfold handleShoot
  refine ⟨fun h => by simp [h], fun h => by simp [h],
    fun h => by simp [h], fun h => by simp [h]⟩

/-- Witness for C4 amended: with a photo already ejecting, a second
capture request leaves the camera state unchanged and the same single
photo pending. -/
theorem handleShoot_rejects_witness :
    handleShoot busyCamera shot1 = busyCamera ∧
    (handleShoot busyCamera shot1).ejectingPhoto = some photoDev :=
  ⟨(handleShoot_rejects busyCamera shot1).1 (by decide),
   ((handleShoot_rejects busyCamera shot1).2.1 (by decide)).trans rfl⟩

/-- The photo list after handleTakePaper: the previous wall with the
ejected photo appended, placed at the rectangle's top-left corner. -/
theorem handleTakePaper_photos (s : AppState) (photo : PhotoData)
    (rect : Rect) :
    (handleTakePaper s photo rect).photos =
      s.photos ++ [{ photo with x := rect.left, y := rect.top }] := by
  unfold handleTakePaper
  rw [autoSaveEffect_photos]

/-- handleTakePaper starts dragging the handed-over photo. -/
theorem handleTakePaper_draggingPhotoId (s : AppState)
    (photo : PhotoData) (rect : Rect) :
    (handleTakePaper s photo rect).draggingPhotoId = some photo.id := by
  unfold handleTakePaper
  rw [autoSaveEffect_draggingPhotoId]

/-- handleTakePaper sets the drag offset to half the rectangle's width
and a quarter of its height. -/
theorem handleTakePaper_dragOffset (s : AppState) (photo : PhotoData)
    (rect : Rect) :
    (handleTakePaper s photo rect).dragOffset =
      { x := rect.width / 2, y := rect.height / 4 } := by
  unfold handleTakePaper
  rw [autoSaveEffect_dragOffset]

/-- The photo list after handleMouseMove while a drag is active: the
dragged photo is repositioned to the pointer minus the drag offset. -/
theorem handleMouseMove_photos (s : AppState) (cx cy : ℚ)
    (did : String) (h : s.draggingPhotoId = some did) :
    (handleMouseMove s cx cy).photos =
      s.photos.map (fun photo =>
        if photo.id == did then
          { photo with
            x := cx - s.dragOffset.x
            y := cy - s.dragOffset.y }
        else photo) := by
  unfold handleMouseMove
  rw [h, autoSaveEffect_photos]

/-- handleMouseMove without an active drag is the identity. -/
theorem handleMouseMove_of_none (s : AppState) (cx cy : ℚ)
    (h : s.draggingPhotoId = none) : handleMouseMove s cx cy = s := by
  unfold handleMouseMove
  rw [h]

/-- C8: hand-off sets the drag offset to (width/2, height/4) of the
ejected photo's rectangle, so the next pointer move places the photo
at the pointer minus (half-width, quarter-height); concretely,
grabbing at (100, 200) with photo width 170 (half-width 85) puts the
photo at x = 15 and y = 200 - 204/4 = 149. -/
theorem handoff_drag_offset_rule (s : AppState) (photo : PhotoData)
    (rect : Rect) (cx cy : ℚ) :
    (handleTakePaper s photo rect).dragOffset =
      { x := rect.width / 2, y := rect.height / 4 } ∧
    (handleMouseMove (handleTakePaper s photo rect) cx cy).photos.getLast?
      = some { photo with
          x := cx - rect.width / 2, y := cy - rect.height / 4 } ∧
    Option.map PhotoData.x
        (handleMouseMove (handleTakePaper state0 photoA rect170)
          100 200).photos.getLast? = some 15 ∧
    Option.map PhotoData.y
        (handleMouseMove (handleTakePaper state0 photoA rect170)
          100 200).photos.getLast? = some 149 := by
  have key : ∀ (s : AppState) (photo : PhotoData) (rect : Rect)
      (cx cy : ℚ),
      (handleMouseMove (handleTakePaper s photo rect) cx cy).photos.getLast?
        = some { photo with
            x := cx - rect.width / 2, y := cy - rect.height / 4 } := by
    intro s photo rect cx cy
    rw [handleMouseMove_photos _ cx cy photo.id
      (handleTakePaper_draggingPhotoId s photo rect)]
    simp only [handleTakePaper_photos, handleTakePaper_dragOffset,
      List.map_append, List.map_cons, List.map_nil,
      List.getLast?_concat]
    simp
  refine ⟨handleTakePaper_dragOffset s photo rect,
    key s photo rect cx cy, ?_, ?_⟩
  · rw [key state0 photoA rect170 100 200]
    simp [rect170]
    norm_num
  · rw [key state0 photoA rect170 100 200]
    simp [rect170]
    norm_num

/-- Every photo of a bring-to-front result was in the input list. -/
theorem mem_of_mem_bringToFront (l : List PhotoData) (id : String)
    (q : PhotoData) (hq : q ∈ bringToFront l id) : q ∈ l := by
  unfold bringToFront at hq
  cases hfind : l.find? (fun p => p.id == id) with
  | none => rw [hfind] at hq; exact hq
  | some p =>
    rw [hfind] at hq
    rcases List.mem_append.mp hq with h | h
    · exact List.mem_of_mem_filter h
    · rw [List.mem_singleton.mp h]
      exact List.mem_of_find?_eq_some hfind

/-- C10: wall operations never touch a photo's identity fields. Every
photo on the wall after a hand-off is either an unchanged previous
photo or the handed-over photo with only its position set; a grab
(bring to front) only reorders existing records; a drag move keeps
every photo's id, image payload, timestamp, rotation and filter,
pointwise in order. -/
theorem wall_ops_preserve_identity (s : AppState) (photo : PhotoData)
    (rect : Rect) (id : String) (cx cy : ℚ) :
    (∀ q ∈ (handleTakePaper s photo rect).photos,
      q ∈ s.photos ∨ q = { photo with x := rect.left, y := rect.top }) ∧
    (∀ q ∈ (handleMouseDown s cx cy id).photos, q ∈ s.photos) ∧
    List.Forall₂ samePhotoCore s.photos (handleMouseMove s cx cy).photos
    := by
  refine ⟨?_, ?_, ?_⟩
  · intro q hq
    rw [handleTakePaper_photos] at hq
    rcases List.mem_append.mp hq with h | h
    · exact Or.inl h
    · exact Or.inr (List.mem_singleton.mp h)
  · intro q hq
    unfold handleMouseDown at hq
    cases hfind : s.photos.find? (fun p => p.id == id) with
    | none => rw [hfind] at hq; exact hq
    | some p =>
      rw [hfind] at hq
      rw [autoSaveEffect_photos] at hq
      exact mem_of_mem_bringToFront s.photos id q hq
  · cases hdrag : s.draggingPhotoId with
    | none =>
      rw [handleMouseMove_of_none s cx cy hdrag]
      exact List.forall₂_same.mpr fun x _ => ⟨rfl, rfl, rfl, rfl, rfl⟩
    | some did =>
      rw [handleMouseMove_photos s cx cy did hdrag]
      refine List.forall₂_map_right_iff.mpr
        (List.forall₂_same.mpr fun x _ => ?_)
      by_cases hx : (x.id == did) = true
      · simp only [hx, if_true]
        exact ⟨rfl, rfl, rfl, rfl, rfl⟩
      · simp only [hx, if_false]
        exact ⟨rfl, rfl, rfl, rfl, rfl⟩

/-- Witness for C10: on the concrete two-photo wall, every photo after
grabbing A is one of the original records, and the hand-off of photo
C only sets its position. -/
theorem wall_ops_preserve_identity_witness :
    photoB ∈ stateAB.photos ∧
    (photoA ∈ stateAB.photos ∨
      photoA = ({ photoC with x := rect0.left, y := rect0.top } :
        PhotoData)) :=
  ⟨(wall_ops_preserve_identity stateAB photoC rect0 "A" 3 4).2.1
      photoB (by decide),
   (wall_ops_preserve_identity stateAB photoC rect0 "A" 3 4).1
      photoA (by decide)⟩

end InsSnap
